import Mathlib

/-!
Verification of the s2n-tls security-rule validation engine
(`src/tls/s2n_security_rules.c`) against its natural-language specification.

The C code is shallowly embedded: pointers that may be `NULL` become
`Option`, the in-place mutation of `struct s2n_security_rule_result` becomes
explicit state passing, and an `S2N_RESULT` error return becomes a `Bool`
success flag paired with the (possibly partially mutated) result state.
-/

set_option autoImplicit false

/-- Modelled from the spec: the key-exchange descriptor of a cipher suite is an
external catalog type (`tls/s2n_kex.h`, not among the sources here); the spec
describes it as "a key-exchange descriptor with an is-ephemeral flag". -/
structure s2n_kex_alg where
  is_ephemeral : Bool
  deriving DecidableEq

/-- Modelled from the spec: `struct s2n_cipher_suite` is an external catalog
type; the engine reads only its display `name` and its (nullable)
`key_exchange_alg` pointer. -/
structure s2n_cipher_suite where
  name : String
  key_exchange_alg : Option s2n_kex_alg
  deriving DecidableEq

/-- Modelled from the spec: `struct s2n_signature_scheme` is an external
catalog type; the engine reads only its wire identifier `iana_value`. -/
structure s2n_signature_scheme where
  iana_value : Nat
  deriving DecidableEq

/-- Modelled from the spec: `struct s2n_ecc_named_curve` is an external
catalog type; the engine reads only its display `name`. -/
structure s2n_ecc_named_curve where
  name : String
  deriving DecidableEq

/-- A security rule: a display name plus the four per-category validator
predicates (`struct s2n_security_rule`, declared in `tls/s2n_security_rules.h`
and modelled from the spec's description of the Rule Registry).  A predicate
returns `none` when the C validator function returns an error (for example a
`RESULT_ENSURE_REF` failure on a missing sub-field) and `some b` when it
succeeds with verdict `b`. -/
structure s2n_security_rule where
  name : String
  validate_cipher_suite : s2n_cipher_suite → Option Bool
  validate_sig_scheme : s2n_signature_scheme → Option Bool
  validate_cert_sig_scheme : s2n_signature_scheme → Option Bool
  validate_curve : s2n_ecc_named_curve → Option Bool

/-- A security policy, as read by this engine.  Each preference list is a
nullable pointer to a counted array of nullable entry pointers, modelled as
`Option (List (Option _))`.  `version` models the string produced by the
external accessor `s2n_security_policy_get_version` (`none` when that accessor
fails or yields `NULL`).  `rules` is the enabled-rules bit set. -/
structure s2n_security_policy where
  version : Option String
  cipher_preferences : Option (List (Option s2n_cipher_suite))
  signature_preferences : Option (List (Option s2n_signature_scheme))
  certificate_signature_preferences : Option (List (Option s2n_signature_scheme))
  ecc_preferences : Option (List (Option s2n_ecc_named_curve))
  rules : Nat

/-- Modelled from the spec: `struct s2n_security_rule_result` is declared in
`tls/s2n_security_rules.h`; the spec describes it as a boolean `found_error`
flag, a capture flag (`write_output`), and a growable append-only text buffer
(`output`, an `s2n_stuffer`).  The buffer is modelled as the list of appended
diagnostic lines; the byte content of the stuffer is the concatenation of
these lines, each followed by the `'\n'` written by the code.  Buffer growth
is modelled as always succeeding (the growable stuffer fails only on
allocation failure). -/
structure s2n_security_rule_result where
  found_error : Bool
  write_output : Bool
  output : List String
  deriving DecidableEq

/-- Modelled from the spec: `S2N_SECURITY_RULES_COUNT` is declared in
`tls/s2n_security_rules.h` (not among the sources here).  The spec fixes the
rule-identifier space to the registry's single entry,
`S2N_PERFECT_FORWARD_SECRECY = 0`, so the count is 1. -/
def S2N_SECURITY_RULES_COUNT : Nat := 1

/-- `s2n_security_rule_result_process` (lines 25-45).  `condition` is the
verdict of a validator; `line` is the diagnostic line the C code would format
with `s2n_stuffer_vprintf` (formatting is pure, so the fully formatted line is
taken as the argument; the C code only performs the formatting on the
`write_output` path, which appends exactly this line and a line break). -/
def s2n_security_rule_result_process (result : s2n_security_rule_result)
    (condition : Bool) (line : String) : s2n_security_rule_result :=
  if condition then
    result
  else
    let result1 := { result with found_error := true }
    if result1.write_output then
      { result1 with output := result1.output ++ [line] }
    else
      result1

/-- `s2n_security_rule_validate_forward_secret` (lines 47-54): errors when the
suite has no key-exchange descriptor, otherwise reports the descriptor's
`is_ephemeral` flag as the verdict. -/
def s2n_security_rule_validate_forward_secret (cipher_suite : s2n_cipher_suite) :
    Option Bool :=
  match cipher_suite.key_exchange_alg with
  | none => none
  | some kex => some kex.is_ephemeral

/-- `s2n_security_rule_all_sig_schemes` (lines 56-62): unconditionally valid. -/
def s2n_security_rule_all_sig_schemes (_ : s2n_signature_scheme) : Option Bool :=
  some true

/-- `s2n_security_rule_all_curves` (lines 64-70): unconditionally valid. -/
def s2n_security_rule_all_curves (_ : s2n_ecc_named_curve) : Option Bool :=
  some true

/-- The single entry of `security_rule_definitions` (lines 72-80). -/
def s2n_security_rule_pfs : s2n_security_rule :=
  { name := "Perfect Forward Secrecy",
    validate_cipher_suite := s2n_security_rule_validate_forward_secret,
    validate_sig_scheme := s2n_security_rule_all_sig_schemes,
    validate_cert_sig_scheme := s2n_security_rule_all_sig_schemes,
    validate_curve := s2n_security_rule_all_curves }

/-- `security_rule_definitions` (lines 72-80): the Rule Registry, indexed by
rule identifier (`S2N_PERFECT_FORWARD_SECRECY = 0`). -/
def security_rule_definitions : List s2n_security_rule :=
  [s2n_security_rule_pfs]

/-- Hexadecimal rendering used by the `%x` conversion of
`s2n_stuffer_vprintf` (standard printf semantics, lowercase). -/
def s2n_hex_render (n : Nat) : String :=
  String.mk (Nat.toDigits 16 n)

/-- The line produced by format string `error_msg_format_name`
(`"%s: policy %s: %s: %s (#%i)"`, line 95) at the given arguments. -/
def s2n_error_msg_name (rule_name policy_name category value : String)
    (index : Nat) : String :=
  rule_name ++ ": policy " ++ policy_name ++ ": " ++ category ++ ": " ++ value
    ++ " (#" ++ Nat.repr index ++ ")"

/-- The line produced by format string `error_msg_format_iana`
(`"%s: policy %s: %s: %x (#%i)"`, line 96) at the given arguments. -/
def s2n_error_msg_iana (rule_name policy_name category : String) (value : Nat)
    (index : Nat) : String :=
  rule_name ++ ": policy " ++ policy_name ++ ": " ++ category ++ ": "
    ++ s2n_hex_render value ++ " (#" ++ Nat.repr index ++ ")"

/-- One of the four per-category loops of `s2n_security_rule_validate_policy`
(for example lines 100-108): walk the entry array; a `NULL` entry fails
(`RESULT_ENSURE_REF`), a validator error propagates (`RESULT_GUARD`), and
otherwise the verdict is handed to `s2n_security_rule_result_process` together
with the diagnostic line for the 1-based index `i + 1`.  Returns the final
result state and the success flag. -/
def s2n_validate_pref_list {α : Type} (v : α → Option Bool)
    (m : α → Nat → String) :
    List (Option α) → Nat → s2n_security_rule_result →
      s2n_security_rule_result × Bool
  | [], _, result => (result, true)
  | none :: _, _, result => (result, false)
  | some x :: rest, i, result =>
    match v x with
    | none => (result, false)
    | some is_valid =>
      s2n_validate_pref_list v m rest (i + 1)
        (s2n_security_rule_result_process result is_valid (m x (i + 1)))

/-- A mandatory preference-list stage of
`s2n_security_rule_validate_policy`: `RESULT_ENSURE_REF` on the list pointer,
then the per-entry loop.  The C function returns on the first error; this is
modelled by threading a success flag, each stage being the identity once the
flag is false (extensionally the same early-return behaviour). -/
def s2n_req_list_step {α : Type} (v : α → Option Bool) (m : α → Nat → String)
    (prefs : Option (List (Option α)))
    (st : s2n_security_rule_result × Bool) : s2n_security_rule_result × Bool :=
  if st.2 then
    match prefs with
    | none => (st.1, false)
    | some l => s2n_validate_pref_list v m l 0 st.1
  else
    st

/-- The optional certificate-signature stage (lines 122-133): a `NULL` list is
skipped entirely (`if (cert_sig_prefs)`), not an error. -/
def s2n_opt_list_step {α : Type} (v : α → Option Bool) (m : α → Nat → String)
    (prefs : Option (List (Option α)))
    (st : s2n_security_rule_result × Bool) : s2n_security_rule_result × Bool :=
  if st.2 then
    match prefs with
    | none => st
    | some l => s2n_validate_pref_list v m l 0 st.1
  else
    st

/-- `s2n_security_rule_validate_policy` (lines 82-148): resolve the policy
name (defaulting to `"unnamed"`), then run the four category stages in order:
cipher suites, signature schemes, optional certificate-signature schemes,
curves. -/
def s2n_security_rule_validate_policy (rule : s2n_security_rule)
    (policy : s2n_security_policy) (result : s2n_security_rule_result) :
    s2n_security_rule_result × Bool :=
  let policy_name := policy.version.getD "unnamed"
  s2n_req_list_step rule.validate_curve
    (fun c i => s2n_error_msg_name rule.name policy_name "curve" c.name i)
    policy.ecc_preferences
    (s2n_opt_list_step rule.validate_cert_sig_scheme
      (fun s i => s2n_error_msg_iana rule.name policy_name
        "certificate signature scheme" s.iana_value i)
      policy.certificate_signature_preferences
      (s2n_req_list_step rule.validate_sig_scheme
        (fun s i => s2n_error_msg_iana rule.name policy_name
          "signature scheme" s.iana_value i)
        policy.signature_preferences
        (s2n_req_list_step rule.validate_cipher_suite
          (fun cs i => s2n_error_msg_name rule.name policy_name
            "cipher suite" cs.name i)
          policy.cipher_preferences
          (result, true))))

/-- The loop of `s2n_security_policy_get_security_rules` (lines 160-172):
peel bits of `flags` from the least significant upward for
`S2N_SECURITY_RULES_COUNT` iterations (`fuel`); each set bit must satisfy
`RESULT_ENSURE_INCLUSIVE_RANGE(0, rule, len)` and
`RESULT_ENSURE_LT(count, max_rules_count)` and then appends
`security_rule_definitions[rule]`. -/
def s2n_get_rules_loop (defs : List s2n_security_rule)
    (max_rules_count : Nat) :
    Nat → Nat → Nat → List s2n_security_rule →
      Option (List s2n_security_rule)
  | 0, _, _, acc => some acc
  | fuel + 1, flags, rule, acc =>
    if flags % 2 == 1 then
      if rule ≤ defs.length then
        if acc.length < max_rules_count then
          match defs.get? rule with
          | some r =>
            s2n_get_rules_loop defs max_rules_count fuel (flags / 2)
              (rule + 1) (acc ++ [r])
          | none => none
        else
          none
      else
        none
    else
      s2n_get_rules_loop defs max_rules_count fuel (flags / 2) (rule + 1) acc

/-- `s2n_security_policy_get_security_rules` (lines 150-176): decode the
policy's enabled-rules bit set into the ordered list of selected registry
entries.  `none` models an error return. -/
def s2n_security_policy_get_security_rules (policy : s2n_security_policy)
    (max_rules_count : Nat) : Option (List s2n_security_rule) :=
  s2n_get_rules_loop security_rule_definitions max_rules_count
    S2N_SECURITY_RULES_COUNT policy.rules 0 []

/-- The loop of `s2n_security_policy_validate_security_rules`
(lines 185-187): run `s2n_security_rule_validate_policy` once per selected
rule, stopping at the first error (`RESULT_GUARD`). -/
def s2n_validate_rules_loop :
    List s2n_security_rule → s2n_security_policy →
      s2n_security_rule_result → s2n_security_rule_result × Bool
  | [], _, result => (result, true)
  | rule :: rest, policy, result =>
    let st := s2n_security_rule_validate_policy rule policy result
    if st.2 then
      s2n_validate_rules_loop rest policy st.1
    else
      (st.1, false)

/-- `s2n_security_policy_validate_security_rules` (lines 178-189). -/
def s2n_security_policy_validate_security_rules
    (policy : s2n_security_policy) (result : s2n_security_rule_result) :
    s2n_security_rule_result × Bool :=
  match s2n_security_policy_get_security_rules policy
      S2N_SECURITY_RULES_COUNT with
  | none => (result, false)
  | some rules => s2n_validate_rules_loop rules policy result

/-- `s2n_security_rule_result_init_output` (lines 191-199): allocate an empty
growable buffer and enable capture. -/
def s2n_security_rule_result_init_output
    (result : s2n_security_rule_result) : s2n_security_rule_result :=
  { result with output := [], write_output := true }

/-- `s2n_security_rule_result_free` (lines 201-208): free the buffer and zero
every field. -/
def s2n_security_rule_result_free
    (_ : s2n_security_rule_result) : s2n_security_rule_result :=
  { found_error := false, write_output := false, output := [] }

/-! ## Specification-side characterisations

Pure functions of the rule and policy used to state the claims: whether a
preference list can be fully validated, which verdicts the loop sees before
stopping, and how many entries fail. -/

/-- A preference list is fully evaluable: no `NULL` entry and no validator
error. -/
def s2n_pref_list_ok {α : Type} (v : α → Option Bool) :
    List (Option α) → Bool
  | [] => true
  | none :: _ => false
  | some x :: rest => (v x).isSome && s2n_pref_list_ok v rest

/-- Whether the per-entry loop records at least one violation before it stops
(it stops at a `NULL` entry or a validator error). -/
def s2n_fail_seen {α : Type} (v : α → Option Bool) :
    List (Option α) → Bool
  | [] => false
  | none :: _ => false
  | some x :: rest =>
    match v x with
    | none => false
    | some b => !b || s2n_fail_seen v rest

/-- The number of entries of the list whose validator verdict is `false`. -/
def s2n_fail_count {α : Type} (v : α → Option Bool) :
    List (Option α) → Nat
  | [] => 0
  | none :: rest => s2n_fail_count v rest
  | some x :: rest =>
    (if v x == some false then 1 else 0) + s2n_fail_count v rest

/-- All four category stages of `s2n_security_rule_validate_policy` can run
to completion: the three mandatory lists are present and fully evaluable, and
the certificate-signature list, when present, is fully evaluable. -/
def s2n_rule_policy_ok (rule : s2n_security_rule)
    (p : s2n_security_policy) : Bool :=
  (match p.cipher_preferences with
   | none => false
   | some l => s2n_pref_list_ok rule.validate_cipher_suite l) &&
  (match p.signature_preferences with
   | none => false
   | some l => s2n_pref_list_ok rule.validate_sig_scheme l) &&
  (match p.certificate_signature_preferences with
   | none => true
   | some l => s2n_pref_list_ok rule.validate_cert_sig_scheme l) &&
  (match p.ecc_preferences with
   | none => false
   | some l => s2n_pref_list_ok rule.validate_curve l)

/-- The number of (category entry) violations of one rule on one policy,
summed over the four categories (an absent list contributes zero). -/
def s2n_rule_violation_count (rule : s2n_security_rule)
    (p : s2n_security_policy) : Nat :=
  s2n_fail_count rule.validate_cipher_suite (p.cipher_preferences.getD []) +
  s2n_fail_count rule.validate_sig_scheme (p.signature_preferences.getD []) +
  s2n_fail_count rule.validate_cert_sig_scheme
    (p.certificate_signature_preferences.getD []) +
  s2n_fail_count rule.validate_curve (p.ecc_preferences.getD [])

/-! ## Concrete fixtures

The end-to-end policy of the spec's testable properties, plus the policies
used as concrete inputs for the bit-set claims. -/

/-- An ephemeral-key-exchange suite (spec fixture `DHE_SUITE`). -/
def dhe_suite : s2n_cipher_suite :=
  { name := "DHE_SUITE", key_exchange_alg := some { is_ephemeral := true } }

/-- A non-ephemeral-key-exchange suite (spec fixture `RSA_SUITE`). -/
def rsa_suite : s2n_cipher_suite :=
  { name := "RSA_SUITE", key_exchange_alg := some { is_ephemeral := false } }

/-- A signature scheme fixture. -/
def test_sig_scheme : s2n_signature_scheme :=
  { iana_value := 1027 }

/-- A curve fixture. -/
def test_curve : s2n_ecc_named_curve :=
  { name := "test_curve" }

/-- The spec's end-to-end policy `"test_all_ciphers"`: rules = {Perfect
Forward Secrecy} (bit 0), suites `[DHE_SUITE, RSA_SUITE]`, one signature
scheme, one curve, no certificate-signature list. -/
def test_all_ciphers_policy : s2n_security_policy :=
  { version := some "test_all_ciphers",
    cipher_preferences := some [some dhe_suite, some rsa_suite],
    signature_preferences := some [some test_sig_scheme],
    certificate_signature_preferences := none,
    ecc_preferences := some [some test_curve],
    rules := 1 }

/-- A zero-initialised result (the Uninitialized state). -/
def zero_result : s2n_security_rule_result :=
  { found_error := false, write_output := false, output := [] }

/-- A zero-initialised result with capture enabled. -/
def captured_result : s2n_security_rule_result :=
  s2n_security_rule_result_init_output zero_result

/-- A policy whose enabled-rules bit set has only bit 1 set: rule
identifier 1 is outside the registry's defined range (the registry defines
only identifier 0). -/
def out_of_range_bit_policy : s2n_security_policy :=
  { version := none,
    cipher_preferences := some [some dhe_suite],
    signature_preferences := some [some test_sig_scheme],
    certificate_signature_preferences := none,
    ecc_preferences := some [some test_curve],
    rules := 2 }

/-- A policy whose enabled-rules bit set is `{1, 3}` (value 10). -/
def bits_one_three_policy : s2n_security_policy :=
  { version := none,
    cipher_preferences := some [some dhe_suite],
    signature_preferences := some [some test_sig_scheme],
    certificate_signature_preferences := none,
    ecc_preferences := some [some test_curve],
    rules := 10 }

/-- A policy with an empty enabled-rules bit set. -/
def no_rules_policy : s2n_security_policy :=
  { version := none,
    cipher_preferences := some [some dhe_suite],
    signature_preferences := some [some test_sig_scheme],
    certificate_signature_preferences := none,
    ecc_preferences := some [some test_curve],
    rules := 0 }

/-! ## Lemmas about the result accumulator -/

theorem process_found_eq (r : s2n_security_rule_result) (c : Bool) (line : String) :
    (s2n_security_rule_result_process r c line).found_error = (r.found_error || !c) := by
  cases c with
  | false => cases hw : r.write_output <;> simp [s2n_security_rule_result_process, hw]
  | true => simp [s2n_security_rule_result_process]

theorem process_write_eq (r : s2n_security_rule_result) (c : Bool) (line : String) :
    (s2n_security_rule_result_process r c line).write_output = r.write_output := by
  cases c with
  | false => cases hw : r.write_output <;> simp [s2n_security_rule_result_process, hw]
  | true => simp [s2n_security_rule_result_process]

theorem process_output_eq (r : s2n_security_rule_result) (c : Bool) (line : String) :
    (s2n_security_rule_result_process r c line).output
      = if r.write_output && !c then r.output ++ [line] else r.output := by
  cases c with
  | false => cases hw : r.write_output <;> simp [s2n_security_rule_result_process, hw]
  | true => simp [s2n_security_rule_result_process]

/-! ## Lemmas about the per-category entry loop -/

theorem pref_list_snd {α : Type} (v : α → Option Bool) (m : α → Nat → String) :
    ∀ (l : List (Option α)) (i : Nat) (r : s2n_security_rule_result),
      (s2n_validate_pref_list v m l i r).2 = s2n_pref_list_ok v l := by
  intro l
  induction l with
  | nil => intro i r; rfl
  | cons hd tl ih =>
    intro i r
    cases hd with
    | none => rfl
    | some x =>
      simp only [s2n_validate_pref_list, s2n_pref_list_ok]
      cases hv : v x with
      | none => simp
      | some b => simp [ih]

theorem pref_list_found {α : Type} (v : α → Option Bool) (m : α → Nat → String) :
    ∀ (l : List (Option α)) (i : Nat) (r : s2n_security_rule_result),
      (s2n_validate_pref_list v m l i r).1.found_error
        = (r.found_error || s2n_fail_seen v l) := by
  intro l
  induction l with
  | nil => intro i r; simp [s2n_validate_pref_list, s2n_fail_seen]
  | cons hd tl ih =>
    intro i r
    cases hd with
    | none => simp [s2n_validate_pref_list, s2n_fail_seen]
    | some x =>
      simp only [s2n_validate_pref_list, s2n_fail_seen]
      cases hv : v x with
      | none => simp
      | some b => simp [ih, process_found_eq, Bool.or_assoc]

theorem pref_list_write {α : Type} (v : α → Option Bool) (m : α → Nat → String) :
    ∀ (l : List (Option α)) (i : Nat) (r : s2n_security_rule_result),
      (s2n_validate_pref_list v m l i r).1.write_output = r.write_output := by
  intro l
  induction l with
  | nil => intro i r; rfl
  | cons hd tl ih =>
    intro i r
    cases hd with
    | none => rfl
    | some x =>
      simp only [s2n_validate_pref_list]
      cases hv : v x with
      | none => simp
      | some b => simp [ih, process_write_eq]

theorem pref_list_out_len {α : Type} (v : α → Option Bool) (m : α → Nat → String) :
    ∀ (l : List (Option α)) (i : Nat) (r : s2n_security_rule_result),
      r.write_output = true → s2n_pref_list_ok v l = true →
      (s2n_validate_pref_list v m l i r).1.output.length
        = r.output.length + s2n_fail_count v l := by
  intro l
  induction l with
  | nil => intro i r hw hok; simp [s2n_validate_pref_list, s2n_fail_count]
  | cons hd tl ih =>
    intro i r hw hok
    cases hd with
    | none => simp [s2n_pref_list_ok] at hok
    | some x =>
      simp only [s2n_pref_list_ok, Bool.and_eq_true] at hok
      simp only [s2n_validate_pref_list, s2n_fail_count]
      cases hv : v x with
      | none => rw [hv] at hok; simp at hok
      | some b =>
        have hw1 : (s2n_security_rule_result_process r b (m x (i + 1))).write_output = true := by
          rw [process_write_eq]; exact hw
        rw [ih (i + 1) _ hw1 hok.2, process_output_eq, hw]
        cases b <;> (simp; try omega)

/-! ## Lemmas about the category stages -/

theorem req_step_snd {α : Type} (v : α → Option Bool) (m : α → Nat → String)
    (prefs : Option (List (Option α))) (st : s2n_security_rule_result × Bool) :
    (s2n_req_list_step v m prefs st).2
      = (st.2 && match prefs with
          | none => false
          | some l => s2n_pref_list_ok v l) := by
  cases st with
  | mk r ok =>
    cases ok with
    | false => simp [s2n_req_list_step]
    | true =>
      cases prefs with
      | none => simp [s2n_req_list_step]
      | some l => simp [s2n_req_list_step, pref_list_snd]

theorem opt_step_snd {α : Type} (v : α → Option Bool) (m : α → Nat → String)
    (prefs : Option (List (Option α))) (st : s2n_security_rule_result × Bool) :
    (s2n_opt_list_step v m prefs st).2
      = (st.2 && match prefs with
          | none => true
          | some l => s2n_pref_list_ok v l) := by
  cases st with
  | mk r ok =>
    cases ok with
    | false => simp [s2n_opt_list_step]
    | true =>
      cases prefs with
      | none => simp [s2n_opt_list_step]
      | some l => simp [s2n_opt_list_step, pref_list_snd]

theorem req_step_found {α : Type} (v : α → Option Bool) (m : α → Nat → String)
    (prefs : Option (List (Option α))) (st : s2n_security_rule_result × Bool) :
    (s2n_req_list_step v m prefs st).1.found_error
      = (st.1.found_error || (st.2 && match prefs with
          | none => false
          | some l => s2n_fail_seen v l)) := by
  cases st with
  | mk r ok =>
    cases ok with
    | false => simp [s2n_req_list_step]
    | true =>
      cases prefs with
      | none => simp [s2n_req_list_step]
      | some l => simp [s2n_req_list_step, pref_list_found]

theorem opt_step_found {α : Type} (v : α → Option Bool) (m : α → Nat → String)
    (prefs : Option (List (Option α))) (st : s2n_security_rule_result × Bool) :
    (s2n_opt_list_step v m prefs st).1.found_error
      = (st.1.found_error || (st.2 && match prefs with
          | none => false
          | some l => s2n_fail_seen v l)) := by
  cases st with
  | mk r ok =>
    cases ok with
    | false => simp [s2n_opt_list_step]
    | true =>
      cases prefs with
      | none => simp [s2n_opt_list_step]
      | some l => simp [s2n_opt_list_step, pref_list_found]

theorem req_step_write {α : Type} (v : α → Option Bool) (m : α → Nat → String)
    (prefs : Option (List (Option α))) (st : s2n_security_rule_result × Bool) :
    (s2n_req_list_step v m prefs st).1.write_output = st.1.write_output := by
  cases st with
  | mk r ok =>
    cases ok with
    | false => simp [s2n_req_list_step]
    | true =>
      cases prefs with
      | none => simp [s2n_req_list_step]
      | some l => simp [s2n_req_list_step, pref_list_write]

theorem opt_step_write {α : Type} (v : α → Option Bool) (m : α → Nat → String)
    (prefs : Option (List (Option α))) (st : s2n_security_rule_result × Bool) :
    (s2n_opt_list_step v m prefs st).1.write_output = st.1.write_output := by
  cases st with
  | mk r ok =>
    cases ok with
    | false => simp [s2n_opt_list_step]
    | true =>
      cases prefs with
      | none => simp [s2n_opt_list_step]
      | some l => simp [s2n_opt_list_step, pref_list_write]

theorem req_step_inner_true {α : Type} {v : α → Option Bool} {m : α → Nat → String}
    {prefs : Option (List (Option α))} {st : s2n_security_rule_result × Bool}
    (h : (s2n_req_list_step v m prefs st).2 = true) : st.2 = true := by
  rw [req_step_snd, Bool.and_eq_true] at h
  exact h.1

theorem opt_step_inner_true {α : Type} {v : α → Option Bool} {m : α → Nat → String}
    {prefs : Option (List (Option α))} {st : s2n_security_rule_result × Bool}
    (h : (s2n_opt_list_step v m prefs st).2 = true) : st.2 = true := by
  rw [opt_step_snd, Bool.and_eq_true] at h
  exact h.1

theorem req_step_out_len {α : Type} {v : α → Option Bool} {m : α → Nat → String}
    {prefs : Option (List (Option α))} {st : s2n_security_rule_result × Bool}
    (hw : st.1.write_output = true)
    (h : (s2n_req_list_step v m prefs st).2 = true) :
    (s2n_req_list_step v m prefs st).1.output.length
      = st.1.output.length + s2n_fail_count v (prefs.getD []) := by
  have h2 : st.2 = true := req_step_inner_true h
  cases prefs with
  | none =>
    rw [req_step_snd, h2] at h
    simp at h
  | some l =>
    have hok : s2n_pref_list_ok v l = true := by
      rw [req_step_snd, h2, Bool.true_and] at h
      exact h
    simp only [s2n_req_list_step, h2, if_true, Option.getD_some]
    exact pref_list_out_len v m l 0 st.1 hw hok

theorem opt_step_out_len {α : Type} {v : α → Option Bool} {m : α → Nat → String}
    {prefs : Option (List (Option α))} {st : s2n_security_rule_result × Bool}
    (hw : st.1.write_output = true)
    (h : (s2n_opt_list_step v m prefs st).2 = true) :
    (s2n_opt_list_step v m prefs st).1.output.length
      = st.1.output.length + s2n_fail_count v (prefs.getD []) := by
  have h2 : st.2 = true := opt_step_inner_true h
  cases prefs with
  | none => simp [s2n_opt_list_step, h2, s2n_fail_count]
  | some l =>
    have hok : s2n_pref_list_ok v l = true := by
      rw [opt_step_snd, h2, Bool.true_and] at h
      exact h
    simp only [s2n_opt_list_step, h2, if_true, Option.getD_some]
    exact pref_list_out_len v m l 0 st.1 hw hok

theorem req_step_obs {α : Type} (v : α → Option Bool) (m : α → Nat → String)
    (prefs : Option (List (Option α))) (st₁ st₂ : s2n_security_rule_result × Bool)
    (h : st₁.1.found_error = st₂.1.found_error ∧ st₁.2 = st₂.2) :
    (s2n_req_list_step v m prefs st₁).1.found_error
        = (s2n_req_list_step v m prefs st₂).1.found_error
      ∧ (s2n_req_list_step v m prefs st₁).2 = (s2n_req_list_step v m prefs st₂).2 := by
  constructor
  · rw [req_step_found, req_step_found, h.1, h.2]
  · rw [req_step_snd, req_step_snd, h.2]

theorem opt_step_obs {α : Type} (v : α → Option Bool) (m : α → Nat → String)
    (prefs : Option (List (Option α))) (st₁ st₂ : s2n_security_rule_result × Bool)
    (h : st₁.1.found_error = st₂.1.found_error ∧ st₁.2 = st₂.2) :
    (s2n_opt_list_step v m prefs st₁).1.found_error
        = (s2n_opt_list_step v m prefs st₂).1.found_error
      ∧ (s2n_opt_list_step v m prefs st₁).2 = (s2n_opt_list_step v m prefs st₂).2 := by
  constructor
  · rw [opt_step_found, opt_step_found, h.1, h.2]
  · rw [opt_step_snd, opt_step_snd, h.2]

theorem req_step_mono {α : Type} (v : α → Option Bool) (m : α → Nat → String)
    (prefs : Option (List (Option α))) (st : s2n_security_rule_result × Bool)
    (h : st.1.found_error = true) :
    (s2n_req_list_step v m prefs st).1.found_error = true := by
  rw [req_step_found, h]
  simp

theorem opt_step_mono {α : Type} (v : α → Option Bool) (m : α → Nat → String)
    (prefs : Option (List (Option α))) (st : s2n_security_rule_result × Bool)
    (h : st.1.found_error = true) :
    (s2n_opt_list_step v m prefs st).1.found_error = true := by
  rw [opt_step_found, h]
  simp

/-! ## Lemmas about `s2n_security_rule_validate_policy` -/

theorem validate_policy_snd (rule : s2n_security_rule) (p : s2n_security_policy)
    (r : s2n_security_rule_result) :
    (s2n_security_rule_validate_policy rule p r).2 = s2n_rule_policy_ok rule p := by
  simp only [s2n_security_rule_validate_policy]
  rw [req_step_snd, opt_step_snd, req_step_snd, req_step_snd]
  simp only [s2n_rule_policy_ok]
  cases hc : p.cipher_preferences <;>
    cases hs : p.signature_preferences <;>
    cases hcert : p.certificate_signature_preferences <;>
    cases he : p.ecc_preferences <;>
    simp [Bool.and_assoc]

theorem validate_policy_obs (rule : s2n_security_rule) (p : s2n_security_policy)
    (r₁ r₂ : s2n_security_rule_result) (h : r₁.found_error = r₂.found_error) :
    (s2n_security_rule_validate_policy rule p r₁).1.found_error
        = (s2n_security_rule_validate_policy rule p r₂).1.found_error
      ∧ (s2n_security_rule_validate_policy rule p r₁).2
        = (s2n_security_rule_validate_policy rule p r₂).2 := by
  simp only [s2n_security_rule_validate_policy]
  exact req_step_obs _ _ _ _ _
    (opt_step_obs _ _ _ _ _
      (req_step_obs _ _ _ _ _
        (req_step_obs _ _ _ _ _ ⟨h, rfl⟩)))

theorem validate_policy_mono (rule : s2n_security_rule) (p : s2n_security_policy)
    (r : s2n_security_rule_result) (h : r.found_error = true) :
    (s2n_security_rule_validate_policy rule p r).1.found_error = true := by
  simp only [s2n_security_rule_validate_policy]
  exact req_step_mono _ _ _ _
    (opt_step_mono _ _ _ _
      (req_step_mono _ _ _ _
        (req_step_mono _ _ _ _ h)))

theorem validate_policy_write (rule : s2n_security_rule) (p : s2n_security_policy)
    (r : s2n_security_rule_result) :
    (s2n_security_rule_validate_policy rule p r).1.write_output = r.write_output := by
  simp only [s2n_security_rule_validate_policy]
  rw [req_step_write, opt_step_write, req_step_write, req_step_write]

theorem validate_policy_out_len (rule : s2n_security_rule) (p : s2n_security_policy)
    (r : s2n_security_rule_result) (hw : r.write_output = true)
    (h : (s2n_security_rule_validate_policy rule p r).2 = true) :
    (s2n_security_rule_validate_policy rule p r).1.output.length
      = r.output.length + s2n_rule_violation_count rule p := by
  simp only [s2n_security_rule_validate_policy] at h ⊢
  have h3 := req_step_inner_true h
  have h2 := opt_step_inner_true h3
  have h1 := req_step_inner_true h2
  rw [req_step_out_len (by simp [opt_step_write, req_step_write, hw]) h,
    opt_step_out_len (by simp [req_step_write, hw]) h3,
    req_step_out_len (by simp [req_step_write, hw]) h2,
    req_step_out_len hw h1]
  simp only [s2n_rule_violation_count]
  omega

/-! ## Lemmas about the multi-rule loop and the top-level entry point -/

theorem rules_loop_obs :
    ∀ (rules : List s2n_security_rule) (p : s2n_security_policy)
      (r₁ r₂ : s2n_security_rule_result), r₁.found_error = r₂.found_error →
      (s2n_validate_rules_loop rules p r₁).1.found_error
          = (s2n_validate_rules_loop rules p r₂).1.found_error
        ∧ (s2n_validate_rules_loop rules p r₁).2
          = (s2n_validate_rules_loop rules p r₂).2 := by
  intro rules
  induction rules with
  | nil => intro p r₁ r₂ h; exact ⟨h, rfl⟩
  | cons rule rest ih =>
    intro p r₁ r₂ h
    have hv := validate_policy_obs rule p r₁ r₂ h
    simp only [s2n_validate_rules_loop]
    rw [hv.2]
    cases hsnd : (s2n_security_rule_validate_policy rule p r₂).2 with
    | false => simp [hv.1]
    | true =>
      simp only [if_true]
      exact ih p _ _ hv.1

theorem rules_loop_mono :
    ∀ (rules : List s2n_security_rule) (p : s2n_security_policy)
      (r : s2n_security_rule_result), r.found_error = true →
      (s2n_validate_rules_loop rules p r).1.found_error = true := by
  intro rules
  induction rules with
  | nil => intro p r h; exact h
  | cons rule rest ih =>
    intro p r h
    have hm := validate_policy_mono rule p r h
    simp only [s2n_validate_rules_loop]
    cases hsnd : (s2n_security_rule_validate_policy rule p r).2 with
    | false => simp [hm]
    | true =>
      simp only [if_true]
      exact ih p _ hm

theorem rules_loop_out_len :
    ∀ (rules : List s2n_security_rule) (p : s2n_security_policy)
      (r : s2n_security_rule_result), r.write_output = true →
      (s2n_validate_rules_loop rules p r).2 = true →
      (s2n_validate_rules_loop rules p r).1.output.length
        = r.output.length
          + (rules.map (fun rule => s2n_rule_violation_count rule p)).sum := by
  intro rules
  induction rules with
  | nil => intro p r hw h; simp [s2n_validate_rules_loop]
  | cons rule rest ih =>
    intro p r hw h
    simp only [s2n_validate_rules_loop] at h ⊢
    cases hsnd : (s2n_security_rule_validate_policy rule p r).2 with
    | false => rw [hsnd] at h; simp at h
    | true =>
      rw [hsnd] at h
      simp only [if_true] at h
      simp only [hsnd, if_true]
      have hw1 : (s2n_security_rule_validate_policy rule p r).1.write_output = true := by
        rw [validate_policy_write]; exact hw
      rw [ih p _ hw1 h, validate_policy_out_len rule p r hw hsnd]
      simp only [List.map_cons, List.sum_cons]
      omega

theorem validate_all_obs (p : s2n_security_policy)
    (r₁ r₂ : s2n_security_rule_result) (h : r₁.found_error = r₂.found_error) :
    (s2n_security_policy_validate_security_rules p r₁).1.found_error
        = (s2n_security_policy_validate_security_rules p r₂).1.found_error
      ∧ (s2n_security_policy_validate_security_rules p r₁).2
        = (s2n_security_policy_validate_security_rules p r₂).2 := by
  simp only [s2n_security_policy_validate_security_rules]
  cases hg : s2n_security_policy_get_security_rules p S2N_SECURITY_RULES_COUNT with
  | none => exact ⟨h, rfl⟩
  | some rules => exact rules_loop_obs rules p r₁ r₂ h

theorem validate_all_mono (p : s2n_security_policy)
    (r : s2n_security_rule_result) (h : r.found_error = true) :
    (s2n_security_policy_validate_security_rules p r).1.found_error = true := by
  simp only [s2n_security_policy_validate_security_rules]
  cases hg : s2n_security_policy_get_security_rules p S2N_SECURITY_RULES_COUNT with
  | none => exact h
  | some rules => exact rules_loop_mono rules p r h

/-! ## Lemmas about rule selection -/

/-- With the current registry (one entry, `S2N_SECURITY_RULES_COUNT = 1`)
rule selection from the top-level call site examines only bit 0 of the
enabled-rules bit set and always succeeds. -/
theorem get_rules_char (p : s2n_security_policy) :
    s2n_security_policy_get_security_rules p S2N_SECURITY_RULES_COUNT
      = some (if p.rules % 2 == 1 then [s2n_security_rule_pfs] else []) := by
  rcases Nat.mod_two_eq_zero_or_one p.rules with h | h <;>
    simp [s2n_security_policy_get_security_rules, S2N_SECURITY_RULES_COUNT,
      s2n_get_rules_loop, h, security_rule_definitions]

/-- The certificate-signature stage behaves identically for an absent list
and for an empty list. -/
theorem opt_step_none_empty {α : Type} (v : α → Option Bool)
    (m : α → Nat → String) (st : s2n_security_rule_result × Bool) :
    s2n_opt_list_step v m none st
      = s2n_opt_list_step v m (some ([] : List (Option α))) st := by
  cases st with
  | mk r ok => cases ok <;> simp [s2n_opt_list_step, s2n_validate_pref_list]

/-! ## The claims -/

/-- Claim C1: for every policy and every set of active rules, the final value
of `found_error` produced by `s2n_security_policy_validate_security_rules`
(and by each `s2n_security_rule_validate_policy` call) is identical whether or
not capture was enabled on the result via
`s2n_security_rule_result_init_output`, and so is the success/error outcome:
capture is observation-only (buffer growth is modelled as always succeeding,
matching the claim's assumption that no buffer-growth failure occurs). -/
theorem claim_C1 (rule : s2n_security_rule) (p : s2n_security_policy)
    (r : s2n_security_rule_result) :
    ((s2n_security_rule_validate_policy rule p
          (s2n_security_rule_result_init_output r)).1.found_error
        = (s2n_security_rule_validate_policy rule p r).1.found_error
      ∧ (s2n_security_rule_validate_policy rule p
            (s2n_security_rule_result_init_output r)).2
          = (s2n_security_rule_validate_policy rule p r).2)
  ∧ ((s2n_security_policy_validate_security_rules p
          (s2n_security_rule_result_init_output r)).1.found_error
        = (s2n_security_policy_validate_security_rules p r).1.found_error
      ∧ (s2n_security_policy_validate_security_rules p
            (s2n_security_rule_result_init_output r)).2
          = (s2n_security_policy_validate_security_rules p r).2) :=
  ⟨validate_policy_obs rule p _ r rfl, validate_all_obs p _ r rfl⟩

/-- Claim C2: validation never short-circuits on violations: whenever
`s2n_security_policy_validate_security_rules` succeeds with capture enabled,
the number of diagnostic lines appended equals exactly the number of
(rule, category entry) pairs whose predicate returned false, summed over all
selected rules, with no deduplication. -/
theorem claim_C2 (p : s2n_security_policy) (r : s2n_security_rule_result)
    (rules : List s2n_security_rule) (hw : r.write_output = true)
    (hget : s2n_security_policy_get_security_rules p S2N_SECURITY_RULES_COUNT
      = some rules)
    (h : (s2n_security_policy_validate_security_rules p r).2 = true) :
    (s2n_security_policy_validate_security_rules p r).1.output.length
      = r.output.length
        + (rules.map (fun rule => s2n_rule_violation_count rule p)).sum := by
  simp only [s2n_security_policy_validate_security_rules, hget] at h ⊢
  exact rules_loop_out_len rules p r hw h

/-- Witness for C2 on the end-to-end fixture: one selected rule, one failing
(rule, entry) pair, exactly one appended line. -/
theorem claim_C2_witness :
    (s2n_security_policy_validate_security_rules test_all_ciphers_policy
        captured_result).1.output.length
      = captured_result.output.length
        + ([s2n_security_rule_pfs].map
            (fun rule => s2n_rule_violation_count rule test_all_ciphers_policy)).sum :=
  claim_C2 test_all_ciphers_policy captured_result [s2n_security_rule_pfs]
    rfl rfl rfl

/-- Claim C3: the Rule Registry contains exactly one entry, named "Perfect
Forward Secrecy"; for every cipher suite with a defined key-exchange
descriptor its cipher-suite predicate reports the suite valid iff the
key-exchange algorithm's `is_ephemeral` flag is set, and its signature-scheme,
certificate-signature-scheme and curve predicates report every value valid
unconditionally. -/
theorem claim_C3 :
    security_rule_definitions.length = 1
  ∧ (∀ rule ∈ security_rule_definitions,
      rule.name = "Perfect Forward Secrecy")
  ∧ (∀ rule ∈ security_rule_definitions,
      ∀ (cs : s2n_cipher_suite) (kex : s2n_kex_alg),
      cs.key_exchange_alg = some kex →
      rule.validate_cipher_suite cs = some kex.is_ephemeral)
  ∧ (∀ rule ∈ security_rule_definitions, ∀ s : s2n_signature_scheme,
      rule.validate_sig_scheme s = some true
        ∧ rule.validate_cert_sig_scheme s = some true)
  ∧ (∀ rule ∈ security_rule_definitions, ∀ c : s2n_ecc_named_curve,
      rule.validate_curve c = some true) := by
  refine ⟨rfl, ?_, ?_, ?_, ?_⟩
  · intro rule hr
    simp only [security_rule_definitions, List.mem_singleton] at hr
    subst hr
    rfl
  · intro rule hr cs kex hk
    simp only [security_rule_definitions, List.mem_singleton] at hr
    subst hr
    simp [s2n_security_rule_pfs, s2n_security_rule_validate_forward_secret, hk]
  · intro rule hr s
    simp only [security_rule_definitions, List.mem_singleton] at hr
    subst hr
    exact ⟨rfl, rfl⟩
  · intro rule hr c
    simp only [security_rule_definitions, List.mem_singleton] at hr
    subst hr
    rfl

/-- Witness for C3: the PFS predicate on the concrete non-ephemeral and
ephemeral fixtures. -/
theorem claim_C3_witness :
    s2n_security_rule_pfs.validate_cipher_suite rsa_suite = some false
  ∧ s2n_security_rule_pfs.validate_cipher_suite dhe_suite = some true := by
  constructor
  · exact claim_C3.2.2.1 s2n_security_rule_pfs
      (by simp [security_rule_definitions]) rsa_suite { is_ephemeral := false } rfl
  · exact claim_C3.2.2.1 s2n_security_rule_pfs
      (by simp [security_rule_definitions]) dhe_suite { is_ephemeral := true } rfl

/-- Counterexample to claim C4 as stated: the policy whose enabled-rules bit
set has only bit 1 set — rule identifier 1, outside the registry's defined
range {0} — does not make rule selection fail: selection succeeds with an
empty rule list, and `s2n_security_policy_validate_security_rules` succeeds
instead of returning an error. -/
theorem claim_C4_counterexample :
    s2n_security_policy_get_security_rules out_of_range_bit_policy
        S2N_SECURITY_RULES_COUNT = some []
  ∧ s2n_security_policy_validate_security_rules out_of_range_bit_policy
        zero_result = (zero_result, true) :=
  ⟨rfl, rfl⟩

/-- Claim C4 (amended): set bits at positions at or above
`S2N_SECURITY_RULES_COUNT` are never examined by the selection loop and are
silently ignored, so selection with the top-level caller's maximum
(`S2N_SECURITY_RULES_COUNT`) always succeeds; the hard error on exceeding the
caller-supplied maximum does exist: with maximum 0, a set bit 0 makes
selection fail. -/
theorem claim_C4 (p : s2n_security_policy) :
    (s2n_security_policy_get_security_rules p
        S2N_SECURITY_RULES_COUNT).isSome = true
  ∧ (p.rules % 2 = 1 →
      s2n_security_policy_get_security_rules p 0 = none) := by
  constructor
  · rw [get_rules_char]
    rfl
  · intro h
    simp [s2n_security_policy_get_security_rules, S2N_SECURITY_RULES_COUNT,
      s2n_get_rules_loop, h, security_rule_definitions]

/-- Witness for C4 (amended): selection with maximum 0 fails on a policy with
bit 0 set. -/
theorem claim_C4_witness :
    s2n_security_policy_get_security_rules test_all_ciphers_policy 0 = none :=
  (claim_C4 test_all_ciphers_policy).2 rfl

/-- Claim C5: a policy whose enabled-rules bit set has no bits set selects an
empty rule list without error, and
`s2n_security_policy_validate_security_rules` on such a policy succeeds and
leaves the result completely unchanged: `found_error` keeps its initial
`false` and no diagnostic text is appended. -/
theorem claim_C5 (p : s2n_security_policy) (r : s2n_security_rule_result)
    (h : p.rules = 0) :
    s2n_security_policy_get_security_rules p S2N_SECURITY_RULES_COUNT
        = some []
  ∧ s2n_security_policy_validate_security_rules p r = (r, true) := by
  have hg : s2n_security_policy_get_security_rules p
      S2N_SECURITY_RULES_COUNT = some [] := by
    rw [get_rules_char, h]
    rfl
  refine ⟨hg, ?_⟩
  simp [s2n_security_policy_validate_security_rules, hg,
    s2n_validate_rules_loop]

/-- Witness for C5 on a concrete no-rules policy. -/
theorem claim_C5_witness :
    s2n_security_policy_get_security_rules no_rules_policy
        S2N_SECURITY_RULES_COUNT = some []
  ∧ s2n_security_policy_validate_security_rules no_rules_policy zero_result
      = (zero_result, true) :=
  claim_C5 no_rules_policy zero_result rfl

/-- Counterexample to claim C6 as stated: decoding the bit set {1, 3}
(value 10) with the actual registry yields the empty list — size 0, not the
claimed two-element list in ascending order. -/
theorem claim_C6_counterexample :
    s2n_security_policy_get_security_rules bits_one_three_policy
      S2N_SECURITY_RULES_COUNT = some [] :=
  rfl

/-- Claim C6 (amended): rule selection walks only bits 0 .. R-1 of the bit
set from bit 0 upward (R = `S2N_SECURITY_RULES_COUNT` = 1 today), appending
the registry entry of each set examined bit in ascending order, and ignores
all higher bits: the selected list is `[s2n_security_rule_pfs]` iff bit 0 is
set and empty otherwise — in particular the bit set {1, 3} decodes to the
empty list, not to a two-element list. -/
theorem claim_C6 (p : s2n_security_policy) :
    s2n_security_policy_get_security_rules p S2N_SECURITY_RULES_COUNT
      = some (if p.rules % 2 == 1 then [s2n_security_rule_pfs] else []) :=
  get_rules_char p

/-- Counterexample to claim C7 as stated: on the end-to-end fixture the
diagnostic text is not the claimed line (the code's format string
`"%s: policy %s: %s: %s (#%i)"` puts a colon between the category label and
the value, which the claimed line omits). -/
theorem claim_C7_counterexample :
    ¬ (s2n_security_policy_validate_security_rules test_all_ciphers_policy
          captured_result).1.output
      = ["Perfect Forward Secrecy: policy test_all_ciphers: cipher suite RSA_SUITE (#2)"] := by
  decide

/-- Claim C7 (amended): on the policy named "test_all_ciphers" with exactly
the Perfect Forward Secrecy rule active, suites [DHE_SUITE (ephemeral),
RSA_SUITE (non-ephemeral)], one signature scheme, one curve and no
certificate-signature list, `s2n_security_policy_validate_security_rules`
succeeds with `found_error = true`, and with capture enabled the diagnostic
text is exactly one line,
"Perfect Forward Secrecy: policy test_all_ciphers: cipher suite: RSA_SUITE (#2)",
recording the 1-based position of the offending suite. -/
theorem claim_C7 :
    s2n_security_policy_validate_security_rules test_all_ciphers_policy
        captured_result
      = ({ found_error := true, write_output := true,
           output := ["Perfect Forward Secrecy: policy test_all_ciphers: cipher suite: RSA_SUITE (#2)"] },
         true) := by
  decide

/-- Claim C8: `s2n_security_rule_validate_policy` succeeds exactly when the
three mandatory lists (cipher suites, signature schemes, curves) are present
and fully evaluable and the optional certificate-signature list, when
present, is fully evaluable; a policy with no certificate-signature list
validates exactly like the same policy with an empty list (the absent
category is skipped, not flagged, and causes no error), whereas a missing
cipher-suite list makes the call fail immediately with the result untouched
(and by the success characterisation a missing signature-scheme or curve
list likewise makes the call fail with an internal error distinct from a
rule violation). -/
theorem claim_C8 (rule : s2n_security_rule) (p : s2n_security_policy)
    (r : s2n_security_rule_result) :
    ((s2n_security_rule_validate_policy rule p r).2
        = s2n_rule_policy_ok rule p)
  ∧ (p.certificate_signature_preferences = none →
      s2n_security_rule_validate_policy rule p r
        = s2n_security_rule_validate_policy rule
            { p with certificate_signature_preferences := some [] } r)
  ∧ (p.cipher_preferences = none →
      s2n_security_rule_validate_policy rule p r = (r, false)) := by
  refine ⟨validate_policy_snd rule p r, ?_, ?_⟩
  · intro h
    simp only [s2n_security_rule_validate_policy, h]
    rw [opt_step_none_empty]
  · intro h
    simp [s2n_security_rule_validate_policy, h, s2n_req_list_step,
      s2n_opt_list_step]

/-- Witness for C8: the end-to-end fixture has no certificate-signature list
and validates exactly like the same policy with an empty list. -/
theorem claim_C8_witness :
    s2n_security_rule_validate_policy s2n_security_rule_pfs
        test_all_ciphers_policy zero_result
      = s2n_security_rule_validate_policy s2n_security_rule_pfs
          { test_all_ciphers_policy with
              certificate_signature_preferences := some [] }
          zero_result :=
  (claim_C8 s2n_security_rule_pfs test_all_ciphers_policy zero_result).2.1 rfl

/-- Claim C9: recording a valid verdict leaves the result entirely unchanged,
and recording an invalid verdict on a result whose capture is not enabled
only sets `found_error`, leaving the capture flag and the buffer untouched. -/
theorem claim_C9 (r : s2n_security_rule_result) (line : String) :
    s2n_security_rule_result_process r true line = r
  ∧ (r.write_output = false →
      s2n_security_rule_result_process r false line
        = { r with found_error := true }) := by
  refine ⟨rfl, ?_⟩
  intro h
  simp [s2n_security_rule_result_process, h]

/-- Witness for C9 on the zero-initialised (capture-disabled) result. -/
theorem claim_C9_witness :
    s2n_security_rule_result_process zero_result false "diag"
      = { zero_result with found_error := true } :=
  (claim_C9 zero_result "diag").2 rfl

/-- Claim C10: `found_error` is monotone: once true, every subsequent
`s2n_security_rule_result_process`, `s2n_security_rule_validate_policy` or
`s2n_security_policy_validate_security_rules` call leaves it true (whether
the call succeeds or returns an error, since the error paths also leave the
partially mutated state behind); only `s2n_security_rule_result_free` resets
it to false. -/
theorem claim_C10 (r : s2n_security_rule_result) (h : r.found_error = true) :
    (∀ (c : Bool) (line : String),
      (s2n_security_rule_result_process r c line).found_error = true)
  ∧ (∀ (rule : s2n_security_rule) (p : s2n_security_policy),
      (s2n_security_rule_validate_policy rule p r).1.found_error = true)
  ∧ (∀ p : s2n_security_policy,
      (s2n_security_policy_validate_security_rules p r).1.found_error = true)
  ∧ (s2n_security_rule_result_free r).found_error = false := by
  refine ⟨?_, ?_, ?_, rfl⟩
  · intro c line
    rw [process_found_eq, h]
    simp
  · intro rule p
    exact validate_policy_mono rule p r h
  · intro p
    exact validate_all_mono p r h

/-- Witness for C10 on a concrete result with `found_error` already true. -/
theorem claim_C10_witness :
    (s2n_security_rule_result_process
        { found_error := true, write_output := false, output := [] }
        false "diag2").found_error = true
  ∧ (s2n_security_rule_result_free
        { found_error := true, write_output := false, output := [] }).found_error
      = false := by
  have h := claim_C10
    { found_error := true, write_output := false, output := [] } rfl
  exact ⟨h.1 false "diag2", h.2.2.2⟩
